import Mathlib

set_option maxRecDepth 8000

/- Shallow embedding of `preprocessor.py` and the record-set handling of
   `app.py` from the GroupcChat-analyzer repository.  Text is modelled as
   lists of characters; the Python `re` operations used by the source are
   modelled by a small backtracking matcher specialised to the pattern
   shapes the source uses (character-class repetitions and literals). -/

abbrev Str := List Char

/-- Python whitespace class `\s` restricted to ASCII (all inputs are ASCII). -/
def isSpaceCh (c : Char) : Bool :=
  c == ' ' || c == '\t' || c == '\n' || c == '\r' || c == Char.ofNat 11 || c == Char.ofNat 12

/-- Python `str.strip()`: remove leading and trailing whitespace. -/
def trim (s : Str) : Str :=
  ((s.dropWhile isSpaceCh).reverse.dropWhile isSpaceCh).reverse

/-- Python `str.lower()` restricted to ASCII letters. -/
def lowerStr (s : Str) : Str := s.map Char.toLower

/-- Python substring test `needle in hay`. -/
def strContains (needle : Str) : Str → Bool
  | [] => needle.isEmpty
  | c :: t => needle.isPrefixOf (c :: t) || strContains needle t

/- ------------------------------------------------------------------ -/
/- A tiny regex engine: the six timestamp patterns of `preprocess` are
   sequences of greedy bounded character-class repetitions and literal
   characters, with one capturing group and (for pattern 6) a literal
   bracket before the group. -/

inductive RItem where
  | cls (p : Char → Bool) (lo : Nat) (hi : Option Nat)
  | lit (c : Char)

/-- Length of the maximal prefix of `s` whose characters satisfy `p`. -/
def takeRunLen (p : Char → Bool) : Str → Nat
  | [] => 0
  | c :: cs => if p c then takeRunLen p cs + 1 else 0

/-- Descending list `[top, top-1, ..., lo]` (empty when `top < lo`):
    the repetition counts a greedy matcher tries, longest first. -/
def descRange (top lo : Nat) : List Nat :=
  (List.range (top + 1 - lo)).map (fun k => top - k)

/-- Match a list of items against a prefix of `s` with greedy backtracking,
    returning the number of characters consumed.  Fuel-based so that the
    kernel can evaluate it; `fuel = items.length + 1` always suffices. -/
def matchOnlyF : Nat → List RItem → Str → Option Nat
  | 0, _, _ => none
  | _ + 1, [], _ => some 0
  | fuel + 1, RItem.lit c :: rest, s =>
    match s with
    | [] => none
    | x :: xs => if x == c then (matchOnlyF fuel rest xs).map (· + 1) else none
  | fuel + 1, RItem.cls p lo hi :: rest, s =>
    let top := match hi with | some h => min h (takeRunLen p s) | none => takeRunLen p s
    (descRange top lo).findSome? (fun n => (matchOnlyF fuel rest (s.drop n)).map (· + n))

/-- Match `items ++ post` against a prefix of `s` with joint greedy
    backtracking, returning the characters consumed by `items` and by
    `post` separately (the capturing-group boundary). -/
def matchSeqF : Nat → List RItem → List RItem → Str → Option (Nat × Nat)
  | 0, _, _, _ => none
  | _ + 1, [], post, s => (matchOnlyF (post.length + 1) post s).map (fun m => (0, m))
  | fuel + 1, RItem.lit c :: rest, post, s =>
    match s with
    | [] => none
    | x :: xs =>
      if x == c then (matchSeqF fuel rest post xs).map (fun q => (q.1 + 1, q.2)) else none
  | fuel + 1, RItem.cls p lo hi :: rest, post, s =>
    let top := match hi with | some h => min h (takeRunLen p s) | none => takeRunLen p s
    (descRange top lo).findSome?
      (fun n => (matchSeqF fuel rest post (s.drop n)).map (fun q => (q.1 + n, q.2)))

/-- One candidate timestamp pattern: optional leading literal bracket,
    the capturing group, and the trailing separator items. -/
structure Pat where
  bracket : Bool
  grp : List RItem
  post : List RItem

/-- Try to match `pat` at the start of `s`; on success return the captured
    group and the total number of characters consumed. -/
def matchPatAt (pat : Pat) (s : Str) : Option (Str × Nat) :=
  if pat.bracket then
    match s with
    | [] => none
    | x :: xs =>
      if x == '[' then
        (matchSeqF (pat.grp.length + 1) pat.grp pat.post xs).map
          (fun q => (xs.take q.1, q.1 + q.2 + 1))
      else none
  else
    (matchSeqF (pat.grp.length + 1) pat.grp pat.post s).map
      (fun q => (s.take q.1, q.1 + q.2))

/-- Left-to-right non-overlapping scan (Python `re.finditer` order):
    returns the list of (text before the match, captured group) pairs and
    the text after the last match. -/
def scanAux (pat : Pat) : Nat → Str → List (Str × Str) × Str
  | 0, s => ([], s)
  | fuel + 1, s =>
    match matchPatAt pat s with
    | some (cap, n) =>
      let r := scanAux pat fuel (s.drop (max n 1))
      (([], cap) :: r.1, r.2)
    | none =>
      match s with
      | [] => ([], [])
      | c :: cs =>
        let r := scanAux pat fuel cs
        match r.1 with
        | [] => ([], c :: r.2)
        | (piece, cap) :: rest => ((c :: piece, cap) :: rest, r.2)

def rescan (pat : Pat) (s : Str) : List (Str × Str) × Str :=
  scanAux pat (s.length + 1) s

/-- Python `re.findall(pattern, s)` for a pattern with one group. -/
def refindall (pat : Pat) (s : Str) : List Str :=
  (rescan pat s).1.map (fun pc => pc.2)

/-- Python `re.split(pattern, s)` for a pattern with one capturing group:
    the pieces between matches interleaved with the captured groups. -/
def resplit (pat : Pat) (s : Str) : List Str :=
  (rescan pat s).1.foldr (fun pc acc => pc.1 :: pc.2 :: acc) [(rescan pat s).2]

/- ------------------------------------------------------------------ -/
/- The six candidate patterns of `preprocess` (preprocessor.py lines 11-29),
   in their fixed priority order. -/

def isAPCh (c : Char) : Bool := c == 'A' || c == 'P' || c == 'a' || c == 'p'

def isMCh (c : Char) : Bool := c == 'M' || c == 'm'

/-- `\d{lo,hi}` -/
def rd (lo hi : Nat) : RItem := RItem.cls Char.isDigit lo (some hi)

/-- `\s*` -/
def rws : RItem := RItem.cls isSpaceCh 0 none

def stdPost : List RItem := [rws, RItem.lit '-', rws]

/-- Pattern 1: `(\d{1,2}/\d{1,2}/\d{2,4},\s*\d{1,2}:\d{2})\s*-\s*` -/
def pat1 : Pat :=
  ⟨false,
   [rd 1 2, RItem.lit '/', rd 1 2, RItem.lit '/', rd 2 4, RItem.lit ',', rws,
    rd 1 2, RItem.lit ':', rd 2 2],
   stdPost⟩

/-- Pattern 2: `(\d{1,2}/\d{1,2}/\d{2,4},\s*\d{1,2}:\d{2}\s*[APap][Mm])\s*-\s*` -/
def pat2 : Pat :=
  ⟨false,
   [rd 1 2, RItem.lit '/', rd 1 2, RItem.lit '/', rd 2 4, RItem.lit ',', rws,
    rd 1 2, RItem.lit ':', rd 2 2, rws, RItem.cls isAPCh 1 (some 1), RItem.cls isMCh 1 (some 1)],
   stdPost⟩

/-- Pattern 3 is textually identical to pattern 2 in the source. -/
def pat3 : Pat := pat2

/-- Pattern 4: `(\d{1,2}\.\d{1,2}\.\d{2,4},\s*\d{1,2}:\d{2})\s*-\s*` -/
def pat4 : Pat :=
  ⟨false,
   [rd 1 2, RItem.lit '.', rd 1 2, RItem.lit '.', rd 2 4, RItem.lit ',', rws,
    rd 1 2, RItem.lit ':', rd 2 2],
   stdPost⟩

/-- Pattern 5: `(\d{4}-\d{1,2}-\d{1,2},\s*\d{1,2}:\d{2})\s*-\s*` -/
def pat5 : Pat :=
  ⟨false,
   [rd 4 4, RItem.lit '-', rd 1 2, RItem.lit '-', rd 1 2, RItem.lit ',', rws,
    rd 1 2, RItem.lit ':', rd 2 2],
   stdPost⟩

/-- Pattern 6: `\[(\d{1,2}/\d{1,2}/\d{2,4},\s*\d{1,2}:\d{2}:\d{2})\]\s*` -/
def pat6 : Pat :=
  ⟨true,
   [rd 1 2, RItem.lit '/', rd 1 2, RItem.lit '/', rd 2 4, RItem.lit ',', rws,
    rd 1 2, RItem.lit ':', rd 2 2, RItem.lit ':', rd 2 2],
   [RItem.lit ']', rws]⟩

def patterns : List Pat := [pat1, pat2, pat3, pat4, pat5, pat6]

/- ------------------------------------------------------------------ -/
/- Candidate selection (preprocessor.py lines 36-57): try each pattern in
   order; a candidate wins when it finds at least one timestamp and the
   split list, after discarding a leading empty piece, has at least as many
   elements as there are timestamps; the message column is the split list
   truncated to the number of timestamps. -/

def candidateResult (pat : Pat) (data : Str) : Option (List Str × List Str) :=
  let tm0 := resplit pat data
  let td := refindall pat data
  if 0 < td.length && 1 < tm0.length then
    let tm := if tm0.head? == some ([] : Str) then tm0.tail else tm0
    if td.length ≤ tm.length then some (tm.take td.length, td) else none
  else none

def selectPattern (data : Str) : Option (List Str × List Str) :=
  patterns.findSome? (fun p => candidateResult p data)

/- ------------------------------------------------------------------ -/
/- Timestamps.  A resolved timestamp (Python `datetime`, timezone-naive). -/

structure DT where
  year : Nat
  month : Nat
  day : Nat
  hour : Nat
  minute : Nat
  second : Nat
deriving DecidableEq

/- `strptime`-style parsing for the explicit format templates of
   `parse_date_manually` (preprocessor.py lines 160-172).  The directive
   semantics follow CPython `_strptime` (also used by pandas when an
   explicit `format=` is given): each numeric directive matches one or two
   digits (two whenever the two-digit value is in the directive's range),
   `%y`/`%Y` match exactly two/four digits, whitespace in the format
   matches one or more whitespace characters, and the whole string must be
   consumed. -/

inductive Dir where
  | dayD | monD | y2 | y4 | h24 | h12 | minuteD | secondD | ampm
  | litD (c : Char)
  | ws
deriving DecidableEq

structure PState where
  day : Nat := 1
  mon : Nat := 1
  year : Nat := 1900
  hr24 : Option Nat := none
  hr12 : Option Nat := none
  pm : Option Bool := none
  minute : Nat := 0
  second : Nat := 0
deriving DecidableEq

def digitVal (c : Char) : Nat := c.toNat - 48

/-- Match one or two leading digits: two when the two-digit value satisfies
    `validTwo`, else one when its value satisfies `validOne` (this is the
    net effect of the ordered alternations CPython compiles `%d`, `%m`,
    `%H`, `%I`, `%M`, `%S` into). -/
def parse2or1 (validTwo validOne : Nat → Bool) (s : Str) : Option (Nat × Str) :=
  match s with
  | c1 :: c2 :: rest =>
    if c1.isDigit && c2.isDigit && validTwo (10 * digitVal c1 + digitVal c2) then
      some (10 * digitVal c1 + digitVal c2, rest)
    else if c1.isDigit && validOne (digitVal c1) then some (digitVal c1, c2 :: rest)
    else none
  | [c1] => if c1.isDigit && validOne (digitVal c1) then some (digitVal c1, []) else none
  | [] => none

/-- Match exactly `k` digits, returning their value. -/
def parseExactDigits (k : Nat) (s : Str) : Option (Nat × Str) :=
  let pre := s.take k
  if pre.length == k && pre.all Char.isDigit then
    some (pre.foldl (fun a c => 10 * a + digitVal c) 0, s.drop k)
  else none

def stepDir (d : Dir) (s : Str) (st : PState) : Option (PState × Str) :=
  match d with
  | Dir.dayD =>
    (parse2or1 (fun v => 1 ≤ v && v ≤ 31) (fun v => 1 ≤ v && v ≤ 9) s).map
      (fun r => ({ st with day := r.1 }, r.2))
  | Dir.monD =>
    (parse2or1 (fun v => 1 ≤ v && v ≤ 12) (fun v => 1 ≤ v && v ≤ 9) s).map
      (fun r => ({ st with mon := r.1 }, r.2))
  | Dir.y2 =>
    (parseExactDigits 2 s).map
      (fun r => ({ st with year := if r.1 ≤ 68 then r.1 + 2000 else r.1 + 1900 }, r.2))
  | Dir.y4 => (parseExactDigits 4 s).map (fun r => ({ st with year := r.1 }, r.2))
  | Dir.h24 =>
    (parse2or1 (fun v => v ≤ 23) (fun v => v ≤ 9) s).map
      (fun r => ({ st with hr24 := some r.1 }, r.2))
  | Dir.h12 =>
    (parse2or1 (fun v => 1 ≤ v && v ≤ 12) (fun v => 1 ≤ v && v ≤ 9) s).map
      (fun r => ({ st with hr12 := some r.1 }, r.2))
  | Dir.minuteD =>
    (parse2or1 (fun v => v ≤ 59) (fun v => v ≤ 9) s).map
      (fun r => ({ st with minute := r.1 }, r.2))
  | Dir.secondD =>
    (parse2or1 (fun v => v ≤ 59) (fun v => v ≤ 9) s).map
      (fun r => ({ st with second := r.1 }, r.2))
  | Dir.ampm =>
    match s with
    | c1 :: c2 :: rest =>
      if isMCh c2 then
        if c1 == 'A' || c1 == 'a' then some ({ st with pm := some false }, rest)
        else if c1 == 'P' || c1 == 'p' then some ({ st with pm := some true }, rest)
        else none
      else none
    | _ => none
  | Dir.litD c =>
    match s with
    | [] => none
    | x :: xs => if x == c then some (st, xs) else none
  | Dir.ws =>
    match s with
    | [] => none
    | x :: xs => if isSpaceCh x then some (st, xs.dropWhile isSpaceCh) else none

def runDirs : List Dir → Str → PState → Option PState
  | [], s, st => if s.isEmpty then some st else none
  | d :: ds, s, st =>
    match stepDir d s st with
    | none => none
    | some r => runDirs ds r.2 r.1

def isLeap (y : Nat) : Bool := (y % 4 == 0 && y % 100 != 0) || y % 400 == 0

def daysInMonth (y m : Nat) : Nat :=
  if m == 2 then (if isLeap y then 29 else 28)
  else if m == 4 || m == 6 || m == 9 || m == 11 then 30 else 31

/-- Resolve the 12-hour/meridiem fields as CPython does and validate the
    day against the month (Python `datetime` raises on an invalid day). -/
def finalizePState (st : PState) : Option DT :=
  let hour :=
    match st.hr24 with
    | some h => h
    | none =>
      match st.hr12, st.pm with
      | some h, some true => if h == 12 then 12 else h + 12
      | some h, _ => if h == 12 then 0 else h
      | none, _ => 0
  if st.day ≤ daysInMonth st.year st.mon then
    some ⟨st.year, st.mon, st.day, hour, st.minute, st.second⟩
  else none

def strptime (fmt : List Dir) (s : Str) : Option DT :=
  match runDirs fmt s {} with
  | none => none
  | some st => finalizePState st

/- The eleven format templates of `parse_date_manually`, in order. -/

def fDMY_HM : List Dir :=
  [Dir.dayD, Dir.litD '/', Dir.monD, Dir.litD '/', Dir.y4, Dir.litD ',', Dir.ws,
   Dir.h24, Dir.litD ':', Dir.minuteD]

def fDMy_HM : List Dir :=
  [Dir.dayD, Dir.litD '/', Dir.monD, Dir.litD '/', Dir.y2, Dir.litD ',', Dir.ws,
   Dir.h24, Dir.litD ':', Dir.minuteD]

def fMDY_HM_p : List Dir :=
  [Dir.monD, Dir.litD '/', Dir.dayD, Dir.litD '/', Dir.y4, Dir.litD ',', Dir.ws,
   Dir.h24, Dir.litD ':', Dir.minuteD, Dir.ws, Dir.ampm]

def fMDy_HM_p : List Dir :=
  [Dir.monD, Dir.litD '/', Dir.dayD, Dir.litD '/', Dir.y2, Dir.litD ',', Dir.ws,
   Dir.h24, Dir.litD ':', Dir.minuteD, Dir.ws, Dir.ampm]

def fDMY_IM_p : List Dir :=
  [Dir.dayD, Dir.litD '/', Dir.monD, Dir.litD '/', Dir.y4, Dir.litD ',', Dir.ws,
   Dir.h12, Dir.litD ':', Dir.minuteD, Dir.ws, Dir.ampm]

def fDMy_IM_p : List Dir :=
  [Dir.dayD, Dir.litD '/', Dir.monD, Dir.litD '/', Dir.y2, Dir.litD ',', Dir.ws,
   Dir.h12, Dir.litD ':', Dir.minuteD, Dir.ws, Dir.ampm]

def fDotDMY_HM : List Dir :=
  [Dir.dayD, Dir.litD '.', Dir.monD, Dir.litD '.', Dir.y4, Dir.litD ',', Dir.ws,
   Dir.h24, Dir.litD ':', Dir.minuteD]

def fDotDMy_HM : List Dir :=
  [Dir.dayD, Dir.litD '.', Dir.monD, Dir.litD '.', Dir.y2, Dir.litD ',', Dir.ws,
   Dir.h24, Dir.litD ':', Dir.minuteD]

def fYMD_HM : List Dir :=
  [Dir.y4, Dir.litD '-', Dir.monD, Dir.litD '-', Dir.dayD, Dir.litD ',', Dir.ws,
   Dir.h24, Dir.litD ':', Dir.minuteD]

def fDMY_HMS : List Dir :=
  [Dir.dayD, Dir.litD '/', Dir.monD, Dir.litD '/', Dir.y4, Dir.litD ',', Dir.ws,
   Dir.h24, Dir.litD ':', Dir.minuteD, Dir.litD ':', Dir.secondD]

def fDMy_HMS : List Dir :=
  [Dir.dayD, Dir.litD '/', Dir.monD, Dir.litD '/', Dir.y2, Dir.litD ',', Dir.ws,
   Dir.h24, Dir.litD ':', Dir.minuteD, Dir.litD ':', Dir.secondD]

def manual_formats : List (List Dir) :=
  [fDMY_HM, fDMy_HM, fMDY_HM_p, fMDy_HM_p, fDMY_IM_p, fDMy_IM_p,
   fDotDMY_HM, fDotDMy_HM, fYMD_HM, fDMY_HMS, fDMy_HMS]

/-- Python `date_str.strip('[]')`. -/
def stripBrackets (s : Str) : Str :=
  let p := fun c => c == '[' || c == ']'
  ((s.dropWhile p).reverse.dropWhile p).reverse

/-- `parse_date_manually` (preprocessor.py lines 151-184).  The permissive
    general-purpose inference (`pd.to_datetime` with format inference) is
    external library code, so it is a parameter `infer`; the function tries
    the explicit templates in order and ends with one more inference
    attempt, returning `none` (NaT) if everything fails. -/
def parse_date_manually (infer : Str → Option DT) (s0 : Str) : Option DT :=
  let s := stripBrackets s0
  match manual_formats.findSome? (fun f => strptime f s) with
  | some dt => some dt
  | none => infer s

/-- Modelled from the spec: the permissive general-purpose date/time
    inference (`pd.to_datetime(..., infer_datetime_format=True)`), which is
    pandas library code not part of this repository.  The spec describes it
    as covering every timestamp signature the Extractor supports, so it is
    modelled as trying the explicit templates of `parse_date_manually`.
    Theorems that depend on the behaviour of the inference keep it as an
    explicit parameter; this model is used only to build concrete runs. -/
def inferModel (s : Str) : Option DT :=
  manual_formats.findSome? (fun f => strptime f (trim s))

/- ------------------------------------------------------------------ -/
/- Speaker/body extraction per segment (preprocessor.py lines 92-123). -/

/-- The fixed list of service-phrase fragments of `is_system_message`
    (preprocessor.py lines 190-211).  Kept verbatim, including the entries
    whose capital letters make them unmatchable against a lowercased
    string. -/
def system_indicators : List Str :=
  ["You created group".toList,
   "created group".toList,
   "added".toList,
   "removed".toList,
   "left".toList,
   "joined".toList,
   "changed the group".toList,
   "changed this group".toList,
   "security code changed".toList,
   "Messages to this group are secured".toList,
   "This message was deleted".toList,
   "You deleted this message".toList,
   "image omitted".toList,
   "video omitted".toList,
   "audio omitted".toList,
   "document omitted".toList,
   "contact omitted".toList,
   "location omitted".toList,
   "sticker omitted".toList,
   "gif omitted".toList]

/-- `is_system_message` (preprocessor.py lines 186-214). -/
def is_system_message (user : Str) : Bool :=
  system_indicators.any (fun ind => strContains ind (lowerStr user))

/-- Python `re.match(r'^([^X]+)X\s*(.*)$', s, re.DOTALL)` for a single
    separator character `X`: the speaker part is the (non-empty) maximal
    prefix without `X`, the rest after `X` loses its leading whitespace. -/
def matchSep (c : Char) (s : Str) : Option (Str × Str) :=
  let pre := s.takeWhile (fun x => x != c)
  match s.drop pre.length with
  | [] => none
  | _ :: tail => if pre.isEmpty then none else some (pre, tail.dropWhile isSpaceCh)

/-- The three separator conventions, in the priority order of
    `user_patterns` (colon, dash, angle bracket); the first that matches
    wins. -/
def firstSep (s : Str) : Option (Str × Str) :=
  match matchSep ':' s with
  | some r => some r
  | none =>
    match matchSep '-' s with
    | some r => some r
    | none => matchSep '>' s

/-- Per-segment processing (preprocessor.py lines 92-123): strip the
    segment, split it on the first matching separator convention; a
    speaker that the service-phrase check classifies as a system message
    is replaced by the sentinel with the whole stripped segment as body;
    segments with no matching convention are likewise attributed to the
    sentinel. -/
def processSegment (m0 : Str) : Str × Str :=
  match firstSep (trim m0) with
  | some r =>
    if is_system_message (trim r.1) then ("group_notification".toList, trim m0)
    else (trim r.1, trim r.2)
  | none => ("group_notification".toList, trim m0)

/- ------------------------------------------------------------------ -/
/- Derived calendar fields (preprocessor.py lines 131-141). -/

def monthName : Nat → Str
  | 1 => "January".toList
  | 2 => "February".toList
  | 3 => "March".toList
  | 4 => "April".toList
  | 5 => "May".toList
  | 6 => "June".toList
  | 7 => "July".toList
  | 8 => "August".toList
  | 9 => "September".toList
  | 10 => "October".toList
  | 11 => "November".toList
  | 12 => "December".toList
  | _ => []

def sakamotoT : List Nat := [0, 3, 2, 5, 0, 3, 5, 1, 4, 6, 2, 4]

/-- Day of week (0 = Sunday) by Sakamoto's method, mirroring the weekday
    pandas derives from the timestamp. -/
def dayOfWeekSun0 (y m d : Nat) : Nat :=
  let y := if m < 3 then y - 1 else y
  (y + y / 4 + y / 400 + sakamotoT.getD (m - 1) 0 + d - y / 100) % 7

def dayName (y m d : Nat) : Str :=
  match dayOfWeekSun0 y m d with
  | 0 => "Sunday".toList
  | 1 => "Monday".toList
  | 2 => "Tuesday".toList
  | 3 => "Wednesday".toList
  | 4 => "Thursday".toList
  | 5 => "Friday".toList
  | _ => "Saturday".toList

/-- Python `f-string` two-digit zero padding. -/
def pad2 (n : Nat) : Str :=
  if n < 10 then '0' :: Nat.toDigits 10 n else Nat.toDigits 10 n

/-- `create_time_period` (preprocessor.py lines 216-225), verbatim. -/
def create_time_period (hour : Nat) : Str :=
  if hour == 23 then "23-00".toList
  else if hour == 0 then "00-01".toList
  else pad2 hour ++ '-' :: pad2 (hour + 1)

/-- The hour-bucket rule exactly as the spec words it: label is
    hour and hour+1 as zero-padded two-digit numbers joined by a dash,
    except hour 23 which maps to the wraparound label. -/
def specHourBucket (h : Nat) : Str :=
  if h == 23 then "23-00".toList else pad2 h ++ '-' :: pad2 (h + 1)

/- ------------------------------------------------------------------ -/
/- The normalized record (one row of the final DataFrame). -/

structure Row where
  user : Str
  message : Str
  date : Option DT
  only_date : Nat × Nat × Nat
  year : Nat
  month_num : Nat
  month : Str
  day : Nat
  day_name : Str
  hour : Nat
  minute : Nat
  period : Str
  sentiment : Option Str := none
deriving DecidableEq

/-- Build one row from a raw segment and its (already resolved) date
    column entry; mirrors lines 92-141 of preprocessor.py for one row.
    The `none` date branch is never kept (such rows are dropped before
    this point), so its calendar fields are immaterial. -/
def mkRowOpt (um : Str) (od : Option DT) : Row :=
  match od with
  | some dt =>
    { user := (processSegment um).1
      message := (processSegment um).2
      date := od
      only_date := (dt.year, dt.month, dt.day)
      year := dt.year
      month_num := dt.month
      month := monthName dt.month
      day := dt.day
      day_name := dayName dt.year dt.month dt.day
      hour := dt.hour
      minute := dt.minute
      period := create_time_period dt.hour }
  | none =>
    { user := (processSegment um).1
      message := (processSegment um).2
      date := od
      only_date := (0, 0, 0)
      year := 0
      month_num := 0
      month := []
      day := 0
      day_name := []
      hour := 0
      minute := 0
      period := create_time_period 0 }

/-- The date-resolution column (preprocessor.py lines 72-76): apply the
    permissive inference to every entry; only when it produced NaT for all
    of them, replace the whole column by the per-entry manual parse. -/
def codeDates (infer : Str → Option DT) (dates : List Str) : List (Option DT) :=
  if (dates.map infer).all Option.isNone then dates.map (parse_date_manually infer)
  else dates.map infer

/-- Rows built from the selected message/date columns (preprocessor.py
    lines 69-145): resolve the date column, drop rows with an unresolved
    date (and return the empty frame if none are left), build the row
    fields, and drop rows whose stripped message is empty. -/
def buildRows (infer : Str → Option DT) (msgs dates : List Str) : List Row :=
  if ((msgs.zip (codeDates infer dates)).filter (fun r => r.2.isSome)).isEmpty then []
  else
    (((msgs.zip (codeDates infer dates)).filter (fun r => r.2.isSome)).map
        (fun r => mkRowOpt r.1 r.2)).filter
      (fun row => !(trim row.message).isEmpty)

/-- `preprocess` (preprocessor.py lines 5-149), parametric in the external
    pandas date inference.  Returns the final record set (the rows of the
    returned DataFrame); printing side effects are dropped. -/
def preprocess (infer : Str → Option DT) (data : Str) : List Row :=
  match selectPattern data with
  | none => []
  | some md => buildRows infer md.1 md.2

/- ------------------------------------------------------------------ -/
/- The record-set handling of the analysis driver (app.py).  The helper
   aggregations live in a module that only returns derived values; the one
   operation in `analyze_chat` that touches the record set itself is the
   sentiment pass (app.py line 331), which assigns a new `sentiment`
   column computed per message by the (external) polarity scorer. -/

/-- The sentiment classification pass of `analyze_chat` (app.py line 331):
    the record set gets a `sentiment` column holding the scorer's output
    for each row's message.  The scorer (`helper.analyze_sentiment_wrapper`)
    is external, hence a parameter. -/
def sentimentPass (scorer : Str → Str) (df : List Row) : List Row :=
  df.map (fun r => { r with sentiment := some (scorer r.message) })

/-- Erase the sentiment column (used to state which fields the pass
    leaves unchanged). -/
def clearSentiment (r : Row) : Row := { r with sentiment := none }

/- ------------------------------------------------------------------ -/
/- Concrete transcripts used by the theorems below. -/

/-- The four-line sample transcript of `test_preprocessor`
    (preprocessor.py lines 272-275). -/
def c7data : Str :=
  ("25/12/2023, 10:30 - John: Hello everyone!\n" ++
   "25/12/2023, 10:31 - Jane: Hi John! How are you?\n" ++
   "25/12/2023, 10:32 - John: I").toList ++
  Char.ofNat 39 ::
  ("m good, thanks for asking\n" ++
   "25/12/2023, 10:33 - Mike: Good morning all").toList

/-- A two-message transcript in the first (24-hour, slash-separated)
    export convention. -/
def c1data : Str :=
  "01/02/2023, 09:15 - Alice: hey\n01/02/2023, 09:16 - Bob: yo".toList

def c2data : Str :=
  "25/12/2023, 10:30 - A: hi\n25/12/2023, 10:31 - B: yo".toList

def c2msgs : List Str := ["25/12/2023, 10:30".toList, "A: hi\n".toList]

def c2dates : List Str := ["25/12/2023, 10:30".toList, "25/12/2023, 10:31".toList]

/-- An inference behaviour that resolves the first timestamp text of
    `c2data` and fails on everything else (the library inference does
    succeed on some strings and fail on others). -/
def c2infer : Str → Option DT :=
  fun s => if s = ("25/12/2023, 10:30".toList) then some ⟨2023, 12, 25, 10, 30, 0⟩ else none

def c6data : Str := "25/12/2023, 10:30 - John: Hello".toList

def junkRow : Row := ⟨[], [], none, (0, 0, 0), 0, 0, [], 0, [], 0, 0, [], none⟩

def c6row : Row := (preprocess inferModel c6data).headD junkRow

def sampleRow : Row :=
  { user := "John".toList
    message := "hi".toList
    date := some ⟨2023, 12, 25, 10, 30, 0⟩
    only_date := (2023, 12, 25)
    year := 2023
    month_num := 12
    month := "December".toList
    day := 25
    day_name := "Monday".toList
    hour := 10
    minute := 30
    period := "10-11".toList
    sentiment := none }

/- ------------------------------------------------------------------ -/
/- Helper lemmas. -/

lemma mkRowOpt_date (um : Str) (od : Option DT) : (mkRowOpt um od).date = od := by
  cases od <;> rfl

lemma mkRowOpt_message (um : Str) (od : Option DT) :
    (mkRowOpt um od).message = (processSegment um).2 := by
  cases od <;> rfl

lemma getD_map_lt {α β : Type} (f : α → β) (l : List α) (i : Nat) (h : i < l.length)
    (dA : α) (dB : β) : (l.map f).getD i dB = f (l.getD i dA) := by
  induction l generalizing i with
  | nil => exact absurd h (by simp)
  | cons a t ih =>
    cases i with
    | zero => rfl
    | succ n => exact ih n (Nat.lt_of_succ_lt_succ h)

lemma filter_and_nil {α : Type} (l : List α) (p q : α → Bool) (h : l.filter p = []) :
    l.filter (fun x => p x && q x) = [] := by
  induction l with
  | nil => rfl
  | cons a t ih =>
    cases hp : p a with
    | true => simp [List.filter_cons, hp] at h
    | false =>
      simp only [List.filter_cons, hp, Bool.false_and, if_neg] at h ⊢
      simp only [Bool.false_eq_true, if_false] at h ⊢
      exact ih h

lemma length_filter_map_filter {α β : Type} (l : List α) (p : α → Bool) (f : α → β)
    (q : β → Bool) :
    (((l.filter p).map f).filter q).length = (l.filter (fun x => p x && q (f x))).length := by
  induction l with
  | nil => rfl
  | cons a t ih =>
    cases hp : p a with
    | false => simpa [List.filter_cons, hp] using ih
    | true =>
      cases hq : q (f a) with
      | false => simpa [List.filter_cons, List.map_cons, hp, hq] using ih
      | true => simpa [List.filter_cons, List.map_cons, hp, hq] using ih

/- ------------------------------------------------------------------ -/
/- Claims. -/

/-- C5: for every hour 0..23 the hour-bucket label is the zero-padded
    two-digit label of hour and hour+1 joined by a dash, except hour 23
    which wraps to the 23-00 label; in particular hour 23, hour 0 and
    hour 9 give their stated labels. -/
theorem C5_hour_bucket_labels :
    (∀ h : Fin 24, create_time_period h.val = specHourBucket h.val) ∧
    create_time_period 23 = "23-00".toList ∧
    create_time_period 0 = "00-01".toList ∧
    create_time_period 9 = "09-10".toList := by decide

/-- C10: system-message classification depends only on the lowercased
    speaker string, so any two speaker strings with equal lowercasings
    classify identically. -/
theorem C10_system_check_case_insensitive (u1 u2 : Str)
    (h : lowerStr u1 = lowerStr u2) :
    is_system_message u1 = is_system_message u2 := by
  unfold is_system_message
  rw [h]

theorem C10_system_check_case_insensitive_witness :
    lowerStr ("John Added you".toList) = lowerStr ("jOHN aDDED YOU".toList) ∧
    is_system_message ("John Added you".toList) =
      is_system_message ("jOHN aDDED YOU".toList) :=
  ⟨by decide, C10_system_check_case_insensitive _ _ (by decide)⟩

/-- C4: when the first matching separator convention yields a speaker
    portion that the service-phrase check classifies as a system message,
    the resulting record carries the sentinel speaker and the whole
    (stripped) segment text as its body — the separator split is
    discarded. -/
theorem C4_service_line_sentinel (m u g2 : Str)
    (h1 : firstSep (trim m) = some (u, g2))
    (h2 : is_system_message (trim u) = true) :
    processSegment m = ("group_notification".toList, trim m) := by
  unfold processSegment
  rw [h1]
  simp [h2]

theorem C4_service_line_sentinel_witness :
    firstSep (trim ("You left- bye".toList)) = some ("You left".toList, "bye".toList) ∧
    is_system_message (trim ("You left".toList)) = true ∧
    processSegment ("You left- bye".toList) =
      ("group_notification".toList, trim ("You left- bye".toList)) :=
  ⟨by decide, by decide,
   C4_service_line_sentinel ("You left- bye".toList) ("You left".toList) ("bye".toList)
     (by decide) (by decide)⟩

/-- C9: a segment matched by none of the three separator conventions is
    attributed to the sentinel speaker with the whole trimmed segment as
    its body. -/
theorem C9_unmatched_segment_notification (m : Str)
    (h1 : matchSep ':' (trim m) = none)
    (h2 : matchSep '-' (trim m) = none)
    (h3 : matchSep '>' (trim m) = none) :
    processSegment m = ("group_notification".toList, trim m) := by
  have hf : firstSep (trim m) = none := by
    unfold firstSep
    rw [h1, h2, h3]
  unfold processSegment
  rw [hf]

theorem C9_unmatched_segment_notification_witness :
    matchSep ':' (trim ("hello world".toList)) = none ∧
    matchSep '-' (trim ("hello world".toList)) = none ∧
    matchSep '>' (trim ("hello world".toList)) = none ∧
    processSegment ("hello world".toList) =
      ("group_notification".toList, trim ("hello world".toList)) :=
  ⟨by decide, by decide, by decide,
   C9_unmatched_segment_notification _ (by decide) (by decide) (by decide)⟩

/-- C8 counterexample: the sentiment classification pass does change the
    record set — it fills the sentiment column — so running it does not
    leave the record set unchanged. -/
theorem C8_sentiment_mutation_counterexample :
    sentimentPass (fun _ => "Neutral".toList) [sampleRow] ≠ [sampleRow] := by decide

/-- C8 amended: the sentiment pass modifies only the sentiment column —
    erasing that column recovers the original record set — and sets it to
    the scorer output on each row's message; the other aggregations return
    derived values and leave the record set untouched. -/
theorem C8_no_mutation_amended (scorer : Str → Str) (df : List Row) :
    (sentimentPass scorer df).map clearSentiment = df.map clearSentiment ∧
    (sentimentPass scorer df).map Row.sentiment =
      df.map (fun r => some (scorer r.message)) := by
  induction df with
  | nil => exact ⟨rfl, rfl⟩
  | cons a t ih => exact ⟨congrArg₂ List.cons rfl ih.1, congrArg₂ List.cons rfl ih.2⟩

/-- C1: the extractor does commit to the first candidate pattern, but the
    committed message column is the raw split list — which interleaves the
    captured timestamps with the body segments — truncated to the number
    of matches, so the i-th timestamp is NOT paired with the i-th body
    segment: for this two-message transcript the paired "bodies" are the
    first timestamp text and the first real body, not the two bodies. -/
theorem C1_timestamp_pairing_bug :
    selectPattern c1data =
      some (["01/02/2023, 09:15".toList, "Alice: hey\n".toList],
            ["01/02/2023, 09:15".toList, "01/02/2023, 09:16".toList]) ∧
    (selectPattern c1data).map Prod.fst ≠
      some ["Alice: hey\n".toList, "Bob: yo".toList] := by
  exact ⟨by decide, by decide⟩

/-- C7: on the repository's own four-line sample transcript the pipeline
    returns 4 records, but their speakers are the truncated interleaved
    split — a timestamp string twice, John once and Jane once — not John,
    Jane, John, Mike; John's count is 1, and Mike does not appear. -/
theorem C7_test_scenario_bug :
    (preprocess inferModel c7data).length = 4 ∧
    (preprocess inferModel c7data).map Row.user =
      ["25/12/2023, 10".toList, "John".toList, "25/12/2023, 10".toList, "Jane".toList] ∧
    ((preprocess inferModel c7data).map Row.user).count ("John".toList) = 1 ∧
    ¬ ("Mike".toList ∈ (preprocess inferModel c7data).map Row.user) := by
  exact ⟨by decide, by decide, by decide, by decide⟩

/-- C3: when no candidate pattern yields a usable split (the loop
    condition of lines 36-57 fails for every pattern), preprocessing
    returns the empty record set; the embedding is total, so no exception
    is possible. -/
theorem C3_no_match_returns_empty (infer : Str → Option DT) (data : Str)
    (h : patterns.all (fun p => (candidateResult p data).isNone) = true) :
    preprocess infer data = [] := by
  have hsel : selectPattern data = none := by
    unfold selectPattern
    rw [List.findSome?_eq_none_iff]
    intro p hp
    exact Option.isNone_iff_eq_none.mp (List.all_eq_true.mp h p hp)
  unfold preprocess
  rw [hsel]

theorem C3_no_match_returns_empty_witness :
    patterns.all (fun p => (candidateResult p ("".toList)).isNone) = true ∧
    preprocess inferModel ("".toList) = [] :=
  ⟨by decide, C3_no_match_returns_empty inferModel ("".toList) (by decide)⟩

/-- C6: every record in the output has a resolved (non-null) date — rows
    whose date failed to resolve are dropped — and a message that is not
    all-whitespace. -/
theorem C6_record_invariants (infer : Str → Option DT) (data : Str) (row : Row)
    (h : row ∈ preprocess infer data) :
    row.date.isSome = true ∧ trim row.message ≠ [] := by
  unfold preprocess at h
  cases hsel : selectPattern data with
  | none =>
    rw [hsel] at h
    exact absurd h (List.not_mem_nil row)
  | some md =>
    rw [hsel] at h
    change row ∈ buildRows infer md.1 md.2 at h
    unfold buildRows at h
    by_cases hemp :
        ((md.1.zip (codeDates infer md.2)).filter (fun r => r.2.isSome)).isEmpty = true
    · rw [if_pos hemp] at h
      exact absurd h (List.not_mem_nil row)
    · rw [if_neg hemp] at h
      rcases List.mem_filter.mp h with ⟨hmem, hbool⟩
      rcases List.mem_map.mp hmem with ⟨r, hr, hrow⟩
      rcases List.mem_filter.mp hr with ⟨_, hsome⟩
      constructor
      · rw [← hrow, mkRowOpt_date]
        exact hsome
      · intro hnil
        rw [hnil] at hbool
        simp at hbool

theorem C6_record_invariants_witness :
    c6row ∈ preprocess inferModel c6data ∧
    (c6row.date.isSome = true ∧ trim c6row.message ≠ []) :=
  ⟨by decide, C6_record_invariants inferModel c6data c6row (by decide)⟩

/-- C2 counterexample: with an inference behaviour that resolves the first
    entry's timestamp but not the second's, the second entry's timestamp
    still parses under the explicit-template fallback and its body is
    non-blank, yet the pipeline drops it (only one record results): the
    fallback is not applied per entry once inference succeeded anywhere. -/
theorem C2_per_entry_fallback_counterexample :
    selectPattern c2data = some (c2msgs, c2dates) ∧
    c2infer ("25/12/2023, 10:31".toList) = none ∧
    (parse_date_manually c2infer ("25/12/2023, 10:31".toList)).isSome = true ∧
    trim (processSegment ("A: hi\n".toList)).2 ≠ [] ∧
    (preprocess c2infer c2data).length = 1 ∧
    (preprocess c2infer c2data).map Row.user = ["25/12/2023, 10".toList] := by
  exact ⟨by decide, by decide, by decide, by decide, by decide, by decide⟩

/-- C2 amended: inference is applied to every entry first, and the
    per-entry fallback is used for the whole column only when inference
    failed on every entry — otherwise an entry whose inference failed is
    dropped without trying the templates; an entry contributes a record
    exactly when its so-resolved date is non-null and its processed body
    is non-blank. -/
theorem C2_resolution_fallback_amended (infer : Str → Option DT) (data : Str)
    (msgs dates : List Str) (hsel : selectPattern data = some (msgs, dates))
    (i : Nat) (hi : i < dates.length) :
    (codeDates infer dates).getD i none =
      (if ∀ s ∈ dates, infer s = none
       then parse_date_manually infer (dates.getD i [])
       else infer (dates.getD i [])) ∧
    (preprocess infer data).length =
      ((msgs.zip (codeDates infer dates)).filter
        (fun r => r.2.isSome && !(trim (processSegment r.1).2).isEmpty)).length := by
  constructor
  · unfold codeDates
    by_cases hall : ((dates.map infer).all Option.isNone) = true
    · have hcond : ∀ s ∈ dates, infer s = none := by
        intro s hs
        exact Option.isNone_iff_eq_none.mp
          (List.all_eq_true.mp hall (infer s) (List.mem_map_of_mem infer hs))
      rw [if_pos hall, if_pos hcond, getD_map_lt (parse_date_manually infer) dates i hi []]
    · have hcond : ¬ ∀ s ∈ dates, infer s = none := by
        intro hc
        exact hall (List.all_eq_true.mpr (by
          intro x hx
          rcases List.mem_map.mp hx with ⟨s, hs, hxs⟩
          rw [← hxs]
          exact Option.isNone_iff_eq_none.mpr (hc s hs)))
      rw [if_neg hall, if_neg hcond, getD_map_lt infer dates i hi []]
  · unfold preprocess
    rw [hsel]
    change (buildRows infer msgs dates).length = _
    unfold buildRows
    by_cases hemp :
        ((msgs.zip (codeDates infer dates)).filter (fun r => r.2.isSome)).isEmpty = true
    · rw [if_pos hemp]
      rw [filter_and_nil _ _ _ (List.isEmpty_iff.mp hemp)]
      rfl
    · rw [if_neg hemp, length_filter_map_filter]
      exact congrArg List.length (List.filter_congr (by
        intro r hr
        rw [mkRowOpt_message]))

theorem C2_resolution_fallback_amended_witness :
    selectPattern c2data = some (c2msgs, c2dates) ∧
    0 < c2dates.length ∧
    ((codeDates c2infer c2dates).getD 0 none =
       (if ∀ s ∈ c2dates, c2infer s = none
        then parse_date_manually c2infer (c2dates.getD 0 [])
        else c2infer (c2dates.getD 0 [])) ∧
     (preprocess c2infer c2data).length =
       ((c2msgs.zip (codeDates c2infer c2dates)).filter
         (fun r => r.2.isSome && !(trim (processSegment r.1).2).isEmpty)).length) :=
  ⟨by decide, by decide,
   C2_resolution_fallback_amended c2infer c2data c2msgs c2dates (by decide) 0 (by decide)⟩
